import Mathlib

/-!
Shallow embedding of the stripe-server repository (src/server.js and the two
revisions in src/unnamed/part_000) together with theorems settling the frozen
claims about its specification.

External SDK calls (Stripe, Firestore, OpenAI, JSON.parse of model output) are
modelled as oracle fields of environment structures; the control flow around
them is translated line by line from the source.  JavaScript truthiness on
strings (the empty string is falsy) and on numbers (zero is falsy) is made
explicit through the helpers below.
-/

namespace StripeServer

/-- JS truthiness filter on an optional string: `null`, `undefined` and the
empty string are falsy.  `jsTruthyS o = some s` exactly when the JS value is a
truthy string `s`. -/
def jsTruthyS : Option String → Option String
  | some s => if s = "" then none else some s
  | none => none

/-- The JS expression `a || b` for string-valued `a`: if `a` is truthy the
result is `a`, otherwise it is `b` unchanged. -/
def jsOrS (a b : Option String) : Option String :=
  match jsTruthyS a with
  | some s => some s
  | none => b

/-- JS truthiness filter on an optional integer: `null`, `undefined` and `0`
are falsy. -/
def jsTruthyI : Option Int → Option Int
  | some n => if n = 0 then none else some n
  | none => none

/-- JS truthiness filter on an optional rational: `null`, `undefined` and `0`
are falsy. -/
def jsTruthyQ : Option ℚ → Option ℚ
  | some q => if q = 0 then none else some q
  | none => none

/-- `String.prototype.split` with a single-character separator, on the
character list of the string: splits at every occurrence of `sep`, keeping
empty pieces, and returns at least one piece. -/
def jsSplit (sep : Char) : List Char → List (List Char)
  | [] => [[]]
  | c :: cs =>
    if c = sep then [] :: jsSplit sep cs
    else
      match jsSplit sep cs with
      | [] => [[c]]
      | h :: t => (c :: h) :: t

/-- `String.prototype.split` with a single-character separator, as a function
on strings. -/
def jsSplitStr (sep : Char) (s : String) : List String :=
  (jsSplit sep s.data).map String.mk

/-- `planId.charAt(0).toUpperCase() + planId.slice(1)` from
`upsertSubscription` (src/server.js line 138). -/
def jsCapitalize (s : String) : String :=
  match s.data with
  | [] => ""
  | c :: rest => String.mk (c.toUpper :: rest)

/-! ## Price catalog (src/server.js lines 76-83, 119-125, 397)

`PRICE_MAP` is a JSON object supplied by configuration; it is modelled as an
association list of `(key, priceId)` entries in object insertion order, with
pairwise distinct keys as in any JSON object. -/

/-- The lookup `PRICE_MAP[planId + "_" + billingCycle]` performed by the
/create-subscription handler (src/server.js line 397). -/
def resolvePriceId (pm : List (String × String)) (planId billingCycle : String) :
    Option String :=
  (pm.find? (fun kv => kv.1 == planId ++ "_" ++ billingCycle)).map (fun kv => kv.2)

/-- `mapPriceIdToPlan` (src/server.js lines 119-125): find the first catalog
entry whose value equals the given price id, split its key on the underscore
character, and return the first two pieces; an absent price id or a miss
returns an empty object, read back as two absent fields. -/
def mapPriceIdToPlan (pm : List (String × String)) (priceId : Option String) :
    Option String × Option String :=
  match priceId with
  | none => (none, none)
  | some p =>
    match pm.find? (fun kv => kv.2 == p) with
    | none => (none, none)
    | some kv =>
      let parts := jsSplitStr '_' kv.1
      (parts.get? 0, parts.get? 1)

/-! ## Webhook reconciliation data model (src/server.js lines 127-154, 474-580)

The Firestore document `users/(uid)/meta/subscription` is modelled as
`SubRecord`; the whole store is a function from user id to an optional record.
The `updatedAt` server timestamp is write-local metadata and is not modelled.
-/

/-- The fields of the `users/(uid)/meta/subscription` document that
`upsertSubscription` writes (src/server.js lines 140-153).  A `none` models a
JSON `null` in the stored document. -/
structure SubRecord where
  planId : Option String
  planName : Option String
  billingCycle : Option String
  status : Option String
  stripeCustomerId : Option String
  stripeSubscriptionId : Option String
  /-- Stored as a Firestore timestamp; modelled by its millisecond value. -/
  currentPeriodEnd : Option Int
  cancelAtPeriodEnd : Bool
  deriving DecidableEq, Repr

/-- The Firestore subscription documents of all users. -/
def Store := String → Option SubRecord

/-- A Stripe subscription object, restricted to the fields the webhook code
reads.  Each `Option` covers both an absent field and a JSON `null`. -/
structure SubEventObj where
  /-- `subscription.metadata.clerkUserId` -/
  metadataClerkUserId : Option String
  /-- `subscription.client_reference_id` -/
  clientReferenceId : Option String
  /-- `subscription.customer` -/
  customer : Option String
  /-- `subscription.status` -/
  status : Option String
  /-- `subscription.items.data[0].price.id` after optional chaining -/
  itemsFirstPriceId : Option String
  /-- `subscription.current_period_end`, in seconds -/
  currentPeriodEnd : Option Int
  /-- `subscription.cancel_at_period_end` -/
  cancelAtPeriodEnd : Option Bool
  /-- `subscription.id` -/
  id : Option String
  deriving DecidableEq, Repr

/-- A Stripe checkout session object, restricted to the fields read by
`handleCheckoutCompleted` (src/server.js lines 507-523). -/
structure SessionObj where
  clientReferenceId : Option String
  metadataClerkUserId : Option String
  customer : Option String
  /-- `session.subscription`, a subscription id -/
  subscription : Option String
  deriving DecidableEq, Repr

/-- A Stripe customer object as read by `extractClerkIdFromCustomer`. -/
structure CustomerObj where
  metadataClerkUserId : Option String
  deriving DecidableEq, Repr

/-- A payment intent object as read by the `payment_intent.succeeded` branch. -/
structure PaymentIntentObj where
  /-- `pi.metadata.subscription` -/
  metadataSubscription : Option String
  deriving DecidableEq, Repr

/-- An invoice object as read by the `invoice.payment_failed` branch. -/
structure InvoiceObj where
  /-- `invoice.subscription` -/
  subscription : Option String
  deriving DecidableEq, Repr

/-- The signature-verified events dispatched by the `/stripe/webhook` switch
(src/server.js lines 542-573). -/
inductive StripeEvent where
  | checkoutCompleted (s : SessionObj)
  | subCreated (sub : SubEventObj)
  | subUpdated (sub : SubEventObj)
  | subDeleted (sub : SubEventObj)
  | paymentIntentSucceeded (pi : PaymentIntentObj)
  | invoicePaymentFailed (inv : InvoiceObj)
  | other (eventType : String)
  deriving DecidableEq, Repr

/-- The environment of the webhook code: the configured price map, whether
Firestore is configured, and the Stripe read oracles.  `retrieveCustomer` and
`retrieveSub` model `stripe.customers.retrieve` and
`stripe.subscriptions.retrieve`; an `Except.error` models a rejected call. -/
structure WebhookEnv where
  priceMap : List (String × String)
  firestoreOn : Bool
  retrieveCustomer : String → Except String CustomerObj
  retrieveSub : String → Except String SubEventObj

/-- `extractClerkIdFromCustomer` (src/server.js lines 474-482): retrieve the
customer, return `customer.metadata.clerkUserId || null`; any retrieval error
is caught and yields `null`. -/
def extractClerkIdFromCustomer (env : WebhookEnv) (customerId : String) :
    Option String :=
  match env.retrieveCustomer customerId with
  | .error _ => none
  | .ok c => jsTruthyS c.metadataClerkUserId

/-- The arguments object built by `handleSubscriptionUpdate` and passed to
`upsertSubscription` (src/server.js lines 496-504). -/
structure UpsertArgs where
  priceId : Option String
  status : Option String
  stripeCustomerId : Option String
  stripeSubscriptionId : Option String
  /-- already multiplied to milliseconds, or `null` -/
  currentPeriodEnd : Option Int
  cancelAtPeriodEnd : Option Bool
  deriving DecidableEq, Repr

/-- The document payload that `upsertSubscription` passes to
`subRef.set(..., merge)` (src/server.js lines 140-153).  Every field of the
document appears in this payload, with explicit `null` for falsy inputs, so a
merge write replaces every field. -/
def upsertPayload (pm : List (String × String)) (args : UpsertArgs) : SubRecord :=
  let plan := mapPriceIdToPlan pm args.priceId
  { planId := plan.1
    planName :=
      match jsTruthyS plan.1 with
      | some s => some (jsCapitalize s)
      | none => none
    billingCycle := plan.2
    status := jsTruthyS args.status
    stripeCustomerId := jsTruthyS args.stripeCustomerId
    stripeSubscriptionId := jsTruthyS args.stripeSubscriptionId
    currentPeriodEnd := jsTruthyI args.currentPeriodEnd
    cancelAtPeriodEnd := args.cancelAtPeriodEnd.getD false }

/-- `upsertSubscription` (src/server.js lines 127-154): no-op when Firestore
is not configured, otherwise a merge write of `upsertPayload` keyed by the
clerk user id.  Since the payload lists every document field, the merge
replaces the whole record. -/
def upsertSubscription (env : WebhookEnv) (store : Store) (clerkUserId : String)
    (args : UpsertArgs) : Store :=
  if env.firestoreOn then
    fun u => if u = clerkUserId then some (upsertPayload env.priceMap args) else store u
  else store

/-- The identity chain of `handleSubscriptionUpdate` (src/server.js lines
485-488): `metadata.clerkUserId || client_reference_id || (customer ?
extractClerkIdFromCustomer(customer) : null)`. -/
def resolveSubUserRaw (env : WebhookEnv) (sub : SubEventObj) : Option String :=
  jsOrS sub.metadataClerkUserId
    (jsOrS sub.clientReferenceId
      (match jsTruthyS sub.customer with
       | some c => extractClerkIdFromCustomer env c
       | none => none))

/-- The user a subscription event effectively resolves to: the identity chain
filtered by the `if (!clerkUserId)` drop check (src/server.js line 490). -/
def resolveSubUser (env : WebhookEnv) (sub : SubEventObj) : Option String :=
  jsTruthyS (resolveSubUserRaw env sub)

/-- The arguments object `handleSubscriptionUpdate` builds from a
subscription event and an optional explicit status (src/server.js lines
496-504): `explicitStatus || subscription.status`, the customer and
subscription ids, the period end converted to milliseconds when truthy. -/
def argsOfEvent (sub : SubEventObj) (explicitStatus : Option String) : UpsertArgs :=
  { priceId := sub.itemsFirstPriceId
    status := jsOrS explicitStatus sub.status
    stripeCustomerId := sub.customer
    stripeSubscriptionId := sub.id
    currentPeriodEnd :=
      match jsTruthyI sub.currentPeriodEnd with
      | some n => some (n * 1000)
      | none => none
    cancelAtPeriodEnd := sub.cancelAtPeriodEnd }

/-- `handleSubscriptionUpdate` (src/server.js lines 484-505): resolve the
user, drop the event when unresolved, otherwise upsert the record computed
from the event and the optional explicit status. -/
def handleSubscriptionUpdate (env : WebhookEnv) (store : Store)
    (sub : SubEventObj) (explicitStatus : Option String) : Store :=
  match resolveSubUser env sub with
  | none => store
  | some uid => upsertSubscription env store uid (argsOfEvent sub explicitStatus)

/-- The identity chain of `handleCheckoutCompleted` (src/server.js lines
508-511), with the drop check folded in.  Note the order: the client
reference field is consulted before the correlation metadata. -/
def resolveSessionUser (env : WebhookEnv) (s : SessionObj) : Option String :=
  jsTruthyS
    (jsOrS s.clientReferenceId
      (jsOrS s.metadataClerkUserId
        (match jsTruthyS s.customer with
         | some c => extractClerkIdFromCustomer env c
         | none => none)))

/-- `handleCheckoutCompleted` (src/server.js lines 507-523): drop when the
session resolves to no user; otherwise, when the session references a
subscription, retrieve it and process it as a subscription update.  The
retrieval may throw, propagating to the webhook catch. -/
def handleCheckoutCompleted (env : WebhookEnv) (store : Store) (s : SessionObj) :
    Except String Store :=
  match resolveSessionUser env s with
  | none => .ok store
  | some _ =>
    match jsTruthyS s.subscription with
    | none => .ok store
    | some sid =>
      match env.retrieveSub sid with
      | .error e => .error e
      | .ok sub => .ok (handleSubscriptionUpdate env store sub none)

/-- The body of the `switch` in the webhook route (src/server.js lines
542-573), returning the new store or a thrown error.  The only throwing
steps, the `stripe.subscriptions.retrieve` calls, happen before any write, so
a thrown error leaves the store unchanged. -/
def processEvent (env : WebhookEnv) (store : Store) (ev : StripeEvent) :
    Except String Store :=
  match ev with
  | .checkoutCompleted s => handleCheckoutCompleted env store s
  | .subCreated sub => .ok (handleSubscriptionUpdate env store sub none)
  | .subUpdated sub => .ok (handleSubscriptionUpdate env store sub none)
  | .subDeleted sub => .ok (handleSubscriptionUpdate env store sub (some "canceled"))
  | .paymentIntentSucceeded pi =>
    match jsTruthyS pi.metadataSubscription with
    | none => .ok store
    | some sid =>
      match env.retrieveSub sid with
      | .error e => .error e
      | .ok sub => .ok (handleSubscriptionUpdate env store sub none)
  | .invoicePaymentFailed inv =>
    match jsTruthyS inv.subscription with
    | none => .ok store
    | some sid =>
      match env.retrieveSub sid with
      | .error e => .error e
      | .ok sub => .ok (handleSubscriptionUpdate env store sub (some "past_due"))
  | .other _ => .ok store

/-- The response body of the webhook route after signature verification. -/
inductive WebhookBody where
  /-- `res.json(received true)` serialized at src/server.js line 579 -/
  | received
  /-- the 500 plain-text body at src/server.js line 576 -/
  | handlerError
  deriving DecidableEq, Repr

/-- The `/stripe/webhook` route after successful signature verification
(src/server.js lines 541-579): run the event switch inside the try block; a
thrown error is answered with 500, otherwise with 200 and the acknowledgment
body. -/
def webhookHandler (env : WebhookEnv) (store : Store) (ev : StripeEvent) :
    Store × Nat × WebhookBody :=
  match processEvent env store ev with
  | .ok newStore => (newStore, 200, .received)
  | .error _ => (store, 500, .handlerError)

/-! ## Identity resolution order as the specification words it

The spec describes one fixed priority order for both subscription and session
objects.  `claimOrderResolve` is written from those words, generically in the
first and second field, to compare against the code resolvers above. -/

/-- Modelled from the spec: explicit correlation metadata first, then the
client reference field, then a fallback lookup of the payment customer
correlation tag, first truthy match winning.  The first two arguments are the
two object fields in the priority order the caller intends. -/
def claimOrderResolve (env : WebhookEnv) (first second customer : Option String) :
    Option String :=
  match jsTruthyS first with
  | some u => some u
  | none =>
    match jsTruthyS second with
    | some u => some u
    | none =>
      match jsTruthyS customer with
      | some c => extractClerkIdFromCustomer env c
      | none => none

/-! ## The /ai/analyze route (src/server.js lines 214-235, 237-373)

The OpenAI calls and the `JSON.parse` of the raw model output are oracles of
`AiEnv`; the branching around them follows the handler line by line.  The
assistant-thread path and the chat-completion path both end by binding `raw`,
so they are folded into the single `modelCall` oracle. -/

/-- The `metadata` and folder fields of an `/ai/analyze` request body.
Folder lists are modelled as JSON arrays of strings or absent; a JS array is
always truthy, so the operators for default choice agree on this model. -/
structure AiReq where
  metadataTitle : Option String
  metadataDescription : Option String
  metadataTags : Option (List String)
  currentFolders : Option (List String)
  preferredFolders : Option (List String)
  deriving DecidableEq, Repr

/-- The result shape built by `fallbackAiResponse`. -/
structure ClassificationResult where
  title : String
  description : String
  tags : List String
  suggestedFolders : List String
  category : String
  deriving DecidableEq, Repr

/-- A parsed JSON value, kept just fine-grained enough for the truthiness
check `parsed || fallback`; all objects and arrays are collapsed into
`vobj`. -/
inductive JsVal where
  | vnull
  | vbool (b : Bool)
  | vnum (n : Int)
  | vstr (s : String)
  | vobj
  deriving DecidableEq, Repr

/-- JS truthiness of a parsed JSON value. -/
def jsTruthyVal : JsVal → Bool
  | .vnull => false
  | .vbool b => b
  | .vnum n => n != 0
  | .vstr s => s != ""
  | .vobj => true

/-- `metadata.title || defaultValue` and friends. -/
def jsOrDefault (o : Option String) (d : String) : String :=
  match jsTruthyS o with
  | some s => s
  | none => d

/-- The folder cleaning shared by `fallbackAiResponse` and the handler:
`folders.map(f trimmed).filter(Boolean)`. -/
def cleanFoldersOf (folders : List String) : List String :=
  (folders.map String.trim).filter (fun f => f ≠ "")

/-- `currentFolders || preferredFolders || []` (and also the nullish variant
at src/server.js line 258, which coincides on array-or-absent values since
arrays are truthy). -/
def jsFoldersOr (a b : Option (List String)) : List String :=
  match a with
  | some l => l
  | none =>
    match b with
    | some l => l
    | none => []

/-- `fallbackAiResponse` (src/server.js lines 214-228). -/
def fallbackAiResponse (req : AiReq) (folders : List String) :
    ClassificationResult :=
  let clean := cleanFoldersOf folders
  let suggested := match clean with
    | [] => ["General"]
    | f :: _ => [f]
  { title := jsOrDefault req.metadataTitle "Content"
    description := jsOrDefault req.metadataDescription "Description"
    tags := match req.metadataTags with
      | some t => t
      | none => ["tag1", "tag2"]
    suggestedFolders := suggested
    category :=
      match suggested.head? with
      | some s => if s ≠ "" then s else "General"
      | none => "General" }

/-- The environment of the `/ai/analyze` handler: the Firestore store, the
OpenAI configuration flag, the combined model-call oracle yielding the raw
output string (or a thrown error, or an absent message content), and the
`JSON.parse` oracle where `Except.error` models a thrown parse error. -/
structure AiEnv where
  firestoreOn : Bool
  subs : String → Option SubRecord
  openaiConfigured : Bool
  modelCall : Except String (Option String)
  parse : String → Except Unit JsVal

/-- `getSubscription` (src/server.js lines 230-235): `null` when Firestore is
unavailable or the user id is falsy, otherwise the stored document. -/
def getSubscription (env : AiEnv) (clerkUserId : String) : Option SubRecord :=
  if env.firestoreOn ∧ clerkUserId ≠ "" then env.subs clerkUserId else none

/-- The gate condition at src/server.js line 250:
`sub and sub.status and sub.status not equal to active`. -/
def subInactive : Option SubRecord → Bool
  | none => false
  | some r =>
    match r.status with
    | none => false
    | some s => s != "" && s != "active"

/-- The response bodies the `/ai/analyze` handler can produce. -/
inductive AiRespBody where
  /-- 403 `Subscription inactive` error body -/
  | forbidden (msg : String)
  /-- a `ClassificationResult` serialized with 200 -/
  | result (r : ClassificationResult)
  /-- the parsed model JSON echoed back with 200 -/
  | parsed (j : JsVal)
  /-- the 500 body with an error message and an embedded fallback -/
  | errorWithFallback (msg : String) (fb : ClassificationResult)
  deriving DecidableEq, Repr

/-- The `/ai/analyze` handler after authentication (src/server.js lines
237-373): subscription gate, no-client fallback, model call, parse of the raw
output, and the catch-all mapping any thrown error to 500 with an embedded
fallback. -/
def aiAnalyze (env : AiEnv) (clerkUserId : String) (req : AiReq) :
    Nat × AiRespBody :=
  let catchFallback := fallbackAiResponse req (jsFoldersOr req.currentFolders req.preferredFolders)
  if subInactive (getSubscription env clerkUserId) then
    (403, .forbidden "Subscription inactive")
  else if env.openaiConfigured = false then
    (200, .result (fallbackAiResponse req (jsFoldersOr req.currentFolders req.preferredFolders)))
  else
    let cleanFolders := cleanFoldersOf (jsFoldersOr req.currentFolders req.preferredFolders)
    match env.modelCall with
    | .error _ => (500, .errorWithFallback "AI analysis failed" catchFallback)
    | .ok raw =>
      match jsTruthyS raw with
      | none => (200, .result (fallbackAiResponse req cleanFolders))
      | some r =>
        match env.parse r with
        | .error _ => (500, .errorWithFallback "AI analysis failed" catchFallback)
        | .ok j =>
          if jsTruthyVal j then (200, .parsed j)
          else (200, .result (fallbackAiResponse req cleanFolders))

/-! ## Customer resolution (src/server.js lines 375-392) -/

/-- A Stripe customer as read by `findOrCreateStripeCustomer`. -/
structure StripeCustomer where
  id : String
  metadataClerkUserId : Option String
  deriving DecidableEq, Repr

/-- The Stripe oracles used by `findOrCreateStripeCustomer`: the list-by-email
query, the metadata patch, and customer creation.  `Except.error` models a
rejected call. -/
structure CustomerEnv where
  listByEmail : Option String → Except String (List StripeCustomer)
  update : String → String → Except String Unit
  create : Option String → Option String → Option String → Except String StripeCustomer

/-- `findOrCreateStripeCustomer` (src/server.js lines 375-392): list by
email; when a customer is found and it lacks a truthy correlation tag while a
truthy clerk user id is supplied, patch the tag with an awaited call carrying
no local error handler, then return the found id; when none is found, create
one and return its id. -/
def findOrCreateStripeCustomer (env : CustomerEnv)
    (email name clerkUserId : Option String) : Except String String :=
  match env.listByEmail email with
  | .error e => .error e
  | .ok listed =>
    match listed with
    | c :: _ =>
      match jsTruthyS c.metadataClerkUserId, jsTruthyS clerkUserId with
      | none, some uid =>
        match env.update c.id uid with
        | .error e => .error e
        | .ok _ => .ok c.id
      | _, _ => .ok c.id
    | [] =>
      match env.create email name clerkUserId with
      | .error e => .error e
      | .ok created => .ok created.id

/-! ## The /create-payment-intent route (src/unnamed/part_000 lines 22-48 and
lines 165-191; the two revisions are byte-identical here) -/

/-- The request body fields read by the handler.  JSON numbers are modelled
as rationals. -/
structure PIReq where
  amount : Option ℚ
  currency : Option String
  customerId : Option String
  deriving DecidableEq, Repr

/-- `Math.round`: round half toward positive infinity. -/
def jsRound (q : ℚ) : Int := ⌊q + 1 / 2⌋

/-- The argument object passed to the payment-intent creation call. -/
structure PICall where
  /-- `Math.round(amount * 100)` -/
  amount : Int
  currency : String
  customerId : Option String
  deriving DecidableEq, Repr

/-- The fields of a created payment intent that the handler reads. -/
structure PIResult where
  clientSecret : String
  id : String
  deriving DecidableEq, Repr

/-- The Stripe oracle for `paymentIntents.create`. -/
structure PIEnv where
  create : PICall → Except String PIResult

/-- Response bodies of the `/create-payment-intent` handler. -/
inductive PIRespBody where
  | error (msg : String)
  | ok (clientSecret paymentIntentId : String)
  deriving DecidableEq, Repr

/-- The `/create-payment-intent` handler: 400 when `amount` is falsy,
otherwise create a payment intent for `Math.round(amount * 100)` cents with
the defaulted currency; map a rejected call to 500.  The second component
records the call made to the payment provider, if any. -/
def createPaymentIntentHandler (env : PIEnv) (req : PIReq) :
    (Nat × PIRespBody) × Option PICall :=
  match jsTruthyQ req.amount with
  | none => ((400, .error "Amount is required"), none)
  | some a =>
    let call : PICall :=
      { amount := jsRound (a * 100)
        currency := req.currency.getD "usd"
        customerId := req.customerId }
    match env.create call with
    | .ok r => ((200, .ok r.clientSecret r.id), some call)
    | .error e => ((500, .error e), some call)

/-! ## Derived predicates used to state claims -/

/-- A signature-verified event whose user identity does not resolve: each
branch that performs identity resolution resolves to no user; branches that
never reach identity resolution carry no identity at all. -/
def identityUnresolved (env : WebhookEnv) (ev : StripeEvent) : Prop :=
  match ev with
  | .checkoutCompleted s => resolveSessionUser env s = none
  | .subCreated sub => resolveSubUser env sub = none
  | .subUpdated sub => resolveSubUser env sub = none
  | .subDeleted sub => resolveSubUser env sub = none
  | .paymentIntentSucceeded pi =>
    ∀ sid, jsTruthyS pi.metadataSubscription = some sid →
      ∃ sub, env.retrieveSub sid = .ok sub ∧ resolveSubUser env sub = none
  | .invoicePaymentFailed inv =>
    ∀ sid, jsTruthyS inv.subscription = some sid →
      ∃ sub, env.retrieveSub sid = .ok sub ∧ resolveSubUser env sub = none
  | .other _ => True

/-! ## Concrete inputs for witnesses and counterexamples -/

/-- A webhook environment with a one-entry catalog and no reachable Stripe
reads. -/
def envW : WebhookEnv :=
  { priceMap := [("pro_monthly", "price_1")]
    firestoreOn := true
    retrieveCustomer := fun _ => .error "unused"
    retrieveSub := fun _ => .error "unused" }

/-- An empty Firestore. -/
def storeEmpty : Store := fun _ => none

/-- A deleted-subscription payload carrying provider status `active`. -/
def subDelW : SubEventObj :=
  { metadataClerkUserId := some "user_42"
    clientReferenceId := none
    customer := none
    status := some "active"
    itemsFirstPriceId := some "price_1"
    currentPeriodEnd := some 1700000000
    cancelAtPeriodEnd := some true
    id := some "sub_1" }

/-- The previously stored record for the merge counterexample: it has a
current period end. -/
def oldRecC2 : SubRecord :=
  { planId := some "pro"
    planName := some "Pro"
    billingCycle := some "monthly"
    status := some "active"
    stripeCustomerId := some "cus_1"
    stripeSubscriptionId := some "sub_1"
    currentPeriodEnd := some 1700000000000
    cancelAtPeriodEnd := false }

/-- A store holding `oldRecC2` for user `user_1`. -/
def storeC2 : Store := fun u => if u = "user_1" then some oldRecC2 else none

/-- A subscription-updated payload that carries no `current_period_end`. -/
def subUpdC2 : SubEventObj :=
  { metadataClerkUserId := some "user_1"
    clientReferenceId := none
    customer := some "cus_1"
    status := some "active"
    itemsFirstPriceId := some "price_1"
    currentPeriodEnd := none
    cancelAtPeriodEnd := some false
    id := some "sub_1" }

/-- A subscription event carrying no identity at all. -/
def subNoIdC3 : SubEventObj :=
  { metadataClerkUserId := none
    clientReferenceId := none
    customer := none
    status := some "active"
    itemsFirstPriceId := some "price_1"
    currentPeriodEnd := some 1700000000
    cancelAtPeriodEnd := some false
    id := some "sub_1" }

/-- A checkout session whose client reference and correlation metadata name
different users. -/
def sessC5 : SessionObj :=
  { clientReferenceId := some "user_B"
    metadataClerkUserId := some "user_A"
    customer := none
    subscription := none }

/-- A resolvable subscription event whose price id is not in the catalog. -/
def subUnknownPriceC6 : SubEventObj :=
  { metadataClerkUserId := some "user_42"
    clientReferenceId := none
    customer := none
    status := some "active"
    itemsFirstPriceId := some "price_zzz"
    currentPeriodEnd := some 1700000000
    cancelAtPeriodEnd := some false
    id := some "sub_1" }

/-- A customer environment in which an existing untagged customer is found by
email and the metadata patch is rejected. -/
def custEnvC7 : CustomerEnv :=
  { listByEmail := fun _ => .ok [{ id := "cus_1", metadataClerkUserId := none }]
    update := fun _ _ => .error "update failed"
    create := fun _ _ _ => .ok { id := "cus_new", metadataClerkUserId := some "user_1" } }

/-- A stored record with explicit status `past_due`. -/
def recC8 : SubRecord :=
  { planId := some "pro"
    planName := some "Pro"
    billingCycle := some "monthly"
    status := some "past_due"
    stripeCustomerId := some "cus_1"
    stripeSubscriptionId := some "sub_1"
    currentPeriodEnd := none
    cancelAtPeriodEnd := false }

/-- An analyze environment whose store holds `recC8` for `user_1` and with no
OpenAI client. -/
def aiEnvC8 : AiEnv :=
  { firestoreOn := true
    subs := fun u => if u = "user_1" then some recC8 else none
    openaiConfigured := false
    modelCall := .ok none
    parse := fun _ => .error () }

/-- An analyze request with a title and one preferred folder. -/
def reqC9 : AiReq :=
  { metadataTitle := some "Foo"
    metadataDescription := none
    metadataTags := none
    currentFolders := none
    preferredFolders := some ["Work"] }

/-- An analyze environment whose model call yields unparsable output. -/
def aiEnvC9bad : AiEnv :=
  { firestoreOn := false
    subs := fun _ => none
    openaiConfigured := true
    modelCall := .ok (some "not json")
    parse := fun _ => .error () }

/-- The same analyze environment with no model client configured. -/
def aiEnvC9off : AiEnv :=
  { firestoreOn := false
    subs := fun _ => none
    openaiConfigured := false
    modelCall := .ok none
    parse := fun _ => .error () }

/-- A payment environment that accepts every creation call. -/
def piEnvC10 : PIEnv :=
  { create := fun _ => .ok { clientSecret := "secret_1", id := "pi_1" } }

/-- A payment request with no amount. -/
def piReqNone : PIReq := { amount := none, currency := none, customerId := none }

/-- A payment request for 19.99 dollars. -/
def piReqC10 : PIReq :=
  { amount := some ((1999 : ℚ) / 100), currency := some "usd", customerId := none }

/-! ## Helper lemmas -/

theorem jsTruthyS_eq_some {o : Option String} {s : String}
    (h : jsTruthyS o = some s) : o = some s ∧ s ≠ "" := by
  match o with
  | none => simp [jsTruthyS] at h
  | some t =>
    by_cases ht : t = "" <;> simp [jsTruthyS, ht] at h
    subst h
    exact ⟨rfl, ht⟩

theorem jsTruthyS_none : jsTruthyS none = none := rfl

theorem jsTruthyS_idem (o : Option String) : jsTruthyS (jsTruthyS o) = jsTruthyS o := by
  match o with
  | none => rfl
  | some t => by_cases ht : t = "" <;> simp [jsTruthyS, ht]

theorem jsTruthyS_some_of_struthy {a : Option String} {s : String}
    (h : jsTruthyS a = some s) : jsTruthyS (some s) = some s := by
  simp [jsTruthyS, (jsTruthyS_eq_some h).2]

theorem jsOrS_of_truthy {a : Option String} {s : String} (h : jsTruthyS a = some s)
    (b : Option String) : jsOrS a b = some s := by
  simp [jsOrS, h]

theorem jsOrS_of_falsy {a : Option String} (h : jsTruthyS a = none)
    (b : Option String) : jsOrS a b = b := by
  simp [jsOrS, h]

theorem jsTruthyS_extract (env : WebhookEnv) (c : String) :
    jsTruthyS (extractClerkIdFromCustomer env c) = extractClerkIdFromCustomer env c := by
  unfold extractClerkIdFromCustomer
  match env.retrieveCustomer c with
  | .error _ => rfl
  | .ok cu => exact jsTruthyS_idem cu.metadataClerkUserId

/-- The status `upsertSubscription` stores is never the empty string: the
payload filters it through JS truthiness, so a falsy input becomes `null`. -/
theorem upsertPayload_status_ne_empty (pm : List (String × String)) (args : UpsertArgs) :
    (upsertPayload pm args).status ≠ some "" := by
  unfold upsertPayload
  match h : jsTruthyS args.status with
  | none => simp [h]
  | some s =>
    simp only [h, ne_eq, Option.some.injEq]
    exact (jsTruthyS_eq_some h).2

/-! ## Claim theorems -/

/-- C1: for every webhook event of type `customer.subscription.deleted` whose
user identity resolves (and with the database configured so the write
happens), the reconciliation write stores a record whose status is
`canceled`, regardless of the status field carried by the subscription object
in the event payload. -/
theorem deleted_event_writes_canceled (env : WebhookEnv) (store : Store)
    (sub : SubEventObj) (uid : String)
    (hfs : env.firestoreOn = true)
    (hres : resolveSubUser env sub = some uid) :
    ∃ r, (webhookHandler env store (.subDeleted sub)).1 uid = some r ∧
      r.status = some "canceled" := by
  have h1 : (webhookHandler env store (.subDeleted sub)).1
      = handleSubscriptionUpdate env store sub (some "canceled") := rfl
  rw [h1]
  unfold handleSubscriptionUpdate
  rw [hres]
  unfold upsertSubscription
  rw [hfs]
  refine ⟨upsertPayload env.priceMap (argsOfEvent sub (some "canceled")), by simp, ?_⟩
  unfold upsertPayload argsOfEvent
  simp [jsOrS, jsTruthyS]

/-- Witness for `deleted_event_writes_canceled`: a concrete deleted event
whose payload still says `active` ends with a stored status of `canceled`. -/
theorem deleted_event_writes_canceled_witness :
    envW.firestoreOn = true ∧ resolveSubUser envW subDelW = some "user_42" ∧
    subDelW.status = some "active" ∧
    ∃ r, (webhookHandler envW storeEmpty (.subDeleted subDelW)).1 "user_42" = some r ∧
      r.status = some "canceled" :=
  ⟨rfl, rfl, rfl, deleted_event_writes_canceled envW storeEmpty subDelW "user_42" rfl rfl⟩

/-- C2 counterexample: a stored record holds a current period end; a
subscription-updated event for the same user carries none; after
reconciliation the stored current period end is `null`, not the previous
value.  The field absent from the event was nulled out by the write. -/
theorem merge_write_counterexample :
    subUpdC2.currentPeriodEnd = none ∧
    storeC2 "user_1" = some oldRecC2 ∧
    oldRecC2.currentPeriodEnd = some 1700000000000 ∧
    ((webhookHandler envW storeC2 (.subUpdated subUpdC2)).1 "user_1").map
      SubRecord.currentPeriodEnd = some none := by
  refine ⟨rfl, by decide, rfl, by decide⟩

/-- C2 amended: every reconciliation write is issued in merge mode but its
payload names every `SubRecord` field, so the stored record becomes exactly
the payload computed from the event alone (fields the event lacks become
`null`, `cancelAtPeriodEnd` becomes `false`), independent of what was stored
before; records of other users are untouched. -/
theorem reconciliation_write_replaces_record (env : WebhookEnv) (store : Store)
    (sub : SubEventObj) (explicitStatus : Option String) (uid : String)
    (hfs : env.firestoreOn = true)
    (hres : resolveSubUser env sub = some uid) :
    handleSubscriptionUpdate env store sub explicitStatus uid =
      some (upsertPayload env.priceMap (argsOfEvent sub explicitStatus)) ∧
    ∀ v, v ≠ uid → handleSubscriptionUpdate env store sub explicitStatus v = store v := by
  unfold handleSubscriptionUpdate
  rw [hres]
  unfold upsertSubscription
  rw [hfs]
  constructor
  · simp
  · intro v hv
    simp [hv]

/-- Witness for `reconciliation_write_replaces_record` at a concrete store
and event. -/
theorem reconciliation_write_replaces_record_witness :
    envW.firestoreOn = true ∧ resolveSubUser envW subUpdC2 = some "user_1" ∧
    (handleSubscriptionUpdate envW storeC2 subUpdC2 none "user_1" =
      some (upsertPayload envW.priceMap (argsOfEvent subUpdC2 none)) ∧
    ∀ v, v ≠ "user_1" → handleSubscriptionUpdate envW storeC2 subUpdC2 none v = storeC2 v) :=
  ⟨rfl, rfl, reconciliation_write_replaces_record envW storeC2 subUpdC2 none "user_1" rfl rfl⟩

/-- C3: a signature-verified webhook event whose user identity does not
resolve (no correlation metadata, no client reference, no correlation tag on
the payment customer) modifies no subscription record and is still answered
with HTTP 200 and the acknowledgment body. -/
theorem unresolved_identity_drops_and_acks (env : WebhookEnv) (store : Store)
    (ev : StripeEvent) (h : identityUnresolved env ev) :
    (webhookHandler env store ev).1 = store ∧
    (webhookHandler env store ev).2.1 = 200 ∧
    (webhookHandler env store ev).2.2 = .received := by
  cases ev with
  | checkoutCompleted s =>
    have hr : resolveSessionUser env s = none := h
    simp [webhookHandler, processEvent, handleCheckoutCompleted, hr]
  | subCreated sub =>
    have hr : resolveSubUser env sub = none := h
    simp [webhookHandler, processEvent, handleSubscriptionUpdate, hr]
  | subUpdated sub =>
    have hr : resolveSubUser env sub = none := h
    simp [webhookHandler, processEvent, handleSubscriptionUpdate, hr]
  | subDeleted sub =>
    have hr : resolveSubUser env sub = none := h
    simp [webhookHandler, processEvent, handleSubscriptionUpdate, hr]
  | paymentIntentSucceeded pi =>
    match hm : jsTruthyS pi.metadataSubscription with
    | none => simp [webhookHandler, processEvent, hm]
    | some sid =>
      obtain ⟨sub, hok, hres⟩ := h sid hm
      simp [webhookHandler, processEvent, handleSubscriptionUpdate, hm, hok, hres]
  | invoicePaymentFailed inv =>
    match hm : jsTruthyS inv.subscription with
    | none => simp [webhookHandler, processEvent, hm]
    | some sid =>
      obtain ⟨sub, hok, hres⟩ := h sid hm
      simp [webhookHandler, processEvent, handleSubscriptionUpdate, hm, hok, hres]
  | other t => exact ⟨rfl, rfl, rfl⟩

/-- Witness for `unresolved_identity_drops_and_acks`: a concrete
subscription-updated event with no identifiers at all is dropped and
acknowledged. -/
theorem unresolved_identity_drops_and_acks_witness :
    identityUnresolved envW (.subUpdated subNoIdC3) ∧
    ((webhookHandler envW storeC2 (.subUpdated subNoIdC3)).1 = storeC2 ∧
    (webhookHandler envW storeC2 (.subUpdated subNoIdC3)).2.1 = 200 ∧
    (webhookHandler envW storeC2 (.subUpdated subNoIdC3)).2.2 = .received) :=
  ⟨rfl, unresolved_identity_drops_and_acks envW storeC2 (.subUpdated subNoIdC3) rfl⟩

/-! ### Splitting and lookup lemmas for the price catalog -/

theorem jsSplit_no_sep {sep : Char} {a : List Char} (h : sep ∉ a) :
    jsSplit sep a = [a] := by
  induction a with
  | nil => rfl
  | cons c cs ih =>
    have hc : ¬c = sep := fun e => h (e ▸ List.mem_cons_self c cs)
    have hcs : sep ∉ cs := fun m => h (List.mem_cons_of_mem _ m)
    simp [jsSplit, hc, ih hcs]

theorem jsSplit_append {sep : Char} {a : List Char} (b : List Char) (h : sep ∉ a) :
    jsSplit sep (a ++ sep :: b) = a :: jsSplit sep b := by
  induction a with
  | nil => simp [jsSplit]
  | cons c cs ih =>
    have hc : ¬c = sep := fun e => h (e ▸ List.mem_cons_self c cs)
    have hcs : sep ∉ cs := fun m => h (List.mem_cons_of_mem _ m)
    simp only [List.cons_append, jsSplit, if_neg hc, List.append_eq, ih hcs]

theorem jsSplitStr_key {planId cycle : String}
    (h1 : '_' ∉ planId.data) (h2 : '_' ∉ cycle.data) :
    jsSplitStr '_' (planId ++ "_" ++ cycle) = [planId, cycle] := by
  have hdata : (planId ++ "_" ++ cycle).data = planId.data ++ '_' :: cycle.data := by
    rw [String.data_append, String.data_append]
    simp
  unfold jsSplitStr
  rw [hdata, jsSplit_append _ h1, jsSplit_no_sep h2]
  rfl

theorem find_first_of_unique {α : Type} {f : α → Bool} {l : List α} {e : α}
    (hmem : e ∈ l) (hf : f e = true)
    (huniq : l.Pairwise (fun x y => f x = true → f y = true → False)) :
    l.find? f = some e := by
  induction l with
  | nil => cases hmem
  | cons hd t ih =>
    rcases List.pairwise_cons.mp huniq with ⟨hh, ht⟩
    cases hmem with
    | head => exact List.find?_cons_of_pos _ hf
    | tail _ hmt =>
      cases hfh : f hd with
      | true => exact absurd (hh e hmt hfh hf) (fun x => x)
      | false => rw [List.find?_cons_of_neg _ (by simp [hfh])]; exact ih hmt ht

/-! ### C4 -/

/-- C4 counterexample: in the catalog whose one entry has key
`a_b_monthly`, the pair whose planId is `a_b` and whose cycle is `monthly`
resolves to the entry price id, but the reverse lookup splits the key at
every underscore and returns the pair `(a, b)`, not the original pair. -/
theorem price_roundtrip_counterexample :
    resolvePriceId [("a_b_monthly", "px")] "a_b" "monthly" = some "px" ∧
    mapPriceIdToPlan [("a_b_monthly", "px")] (some "px") = (some "a", some "b") ∧
    ((some "a" : Option String), (some "b" : Option String)) ≠
      ((some "a_b" : Option String), (some "monthly" : Option String)) := by
  refine ⟨by decide, by decide, by decide⟩

/-- C4 amended: the round trip holds for every `(planId, billingCycle)` pair
whose key is in the catalog, provided the catalog keys and price ids are each
pairwise distinct and neither component of the pair contains an underscore. -/
theorem price_roundtrip_amended (pm : List (String × String))
    (planId cycle p : String)
    (hmem : (planId ++ "_" ++ cycle, p) ∈ pm)
    (hkeys : pm.Pairwise (fun a b => a.1 ≠ b.1))
    (hvals : pm.Pairwise (fun a b => a.2 ≠ b.2))
    (h1 : '_' ∉ planId.data) (h2 : '_' ∉ cycle.data) :
    resolvePriceId pm planId cycle = some p ∧
    mapPriceIdToPlan pm (some p) = (some planId, some cycle) := by
  have hfk : pm.find? (fun kv => kv.1 == planId ++ "_" ++ cycle) =
      some (planId ++ "_" ++ cycle, p) := by
    refine find_first_of_unique hmem (by simp) ?_
    refine hkeys.imp ?_
    intro a b hab ha hb
    exact hab ((eq_of_beq ha).trans (eq_of_beq hb).symm)
  have hfv : pm.find? (fun kv => kv.2 == p) = some (planId ++ "_" ++ cycle, p) := by
    refine find_first_of_unique hmem (by simp) ?_
    refine hvals.imp ?_
    intro a b hab ha hb
    exact hab ((eq_of_beq ha).trans (eq_of_beq hb).symm)
  constructor
  · unfold resolvePriceId
    rw [hfk]
    rfl
  · simp [mapPriceIdToPlan, hfv, jsSplitStr_key h1 h2]

/-- Witness for `price_roundtrip_amended` on a two-entry catalog. -/
theorem price_roundtrip_amended_witness :
    ("pro" ++ "_" ++ "monthly", "price_1") ∈
      [("pro_monthly", "price_1"), ("pro_yearly", "price_2")] ∧
    resolvePriceId [("pro_monthly", "price_1"), ("pro_yearly", "price_2")]
      "pro" "monthly" = some "price_1" ∧
    mapPriceIdToPlan [("pro_monthly", "price_1"), ("pro_yearly", "price_2")]
      (some "price_1") = (some "pro", some "monthly") := by
  refine ⟨by decide, ?_⟩
  have h := price_roundtrip_amended
    [("pro_monthly", "price_1"), ("pro_yearly", "price_2")] "pro" "monthly" "price_1"
    (by decide) (by decide) (by decide) (by decide) (by decide)
  exact h

/-- The truthiness-filtered chain used by both webhook resolvers equals the
generic priority resolver applied to its first two fields in chain order. -/
theorem resolveChain_eq_claimOrder (env : WebhookEnv) (a b cust : Option String) :
    jsTruthyS (jsOrS a (jsOrS b
      (match jsTruthyS cust with
       | some c => extractClerkIdFromCustomer env c
       | none => none))) = claimOrderResolve env a b cust := by
  unfold claimOrderResolve
  cases ha : jsTruthyS a with
  | some s =>
    rw [jsOrS_of_truthy ha]
    exact jsTruthyS_some_of_struthy ha
  | none =>
    rw [jsOrS_of_falsy ha]
    cases hb : jsTruthyS b with
    | some s =>
      rw [jsOrS_of_truthy hb]
      exact jsTruthyS_some_of_struthy hb
    | none =>
      rw [jsOrS_of_falsy hb]
      cases hc : jsTruthyS cust with
      | some c => exact jsTruthyS_extract env c
      | none => rfl

/-! ### C5 -/

/-- C5 counterexample: a checkout session whose correlation metadata names
`user_A` and whose client reference names `user_B` resolves, in the code, to
the client reference `user_B`, while the priority order the claim states
(metadata first) yields `user_A`. -/
theorem session_resolution_order_counterexample :
    sessC5.metadataClerkUserId = some "user_A" ∧
    sessC5.clientReferenceId = some "user_B" ∧
    resolveSessionUser envW sessC5 = some "user_B" ∧
    claimOrderResolve envW sessC5.metadataClerkUserId sessC5.clientReferenceId
      sessC5.customer = some "user_A" ∧
    (some "user_B" : Option String) ≠ some "user_A" := by
  refine ⟨rfl, rfl, rfl, rfl, by decide⟩

/-- C5 amended: identity resolution is a first-truthy-match priority chain
ending in the customer-tag lookup, but the order of the first two fields
depends on the object: subscription objects consult correlation metadata
before the client reference, while checkout sessions consult the client
reference before the correlation metadata. -/
theorem identity_resolution_order_amended :
    (∀ env sub, resolveSubUser env sub =
      claimOrderResolve env sub.metadataClerkUserId sub.clientReferenceId sub.customer) ∧
    (∀ env s, resolveSessionUser env s =
      claimOrderResolve env s.clientReferenceId s.metadataClerkUserId s.customer) := by
  constructor
  · intro env sub
    exact resolveChain_eq_claimOrder env sub.metadataClerkUserId sub.clientReferenceId
      sub.customer
  · intro env s
    exact resolveChain_eq_claimOrder env s.clientReferenceId s.metadataClerkUserId
      s.customer

/-- When no catalog entry carries the given price id (including an absent
price id), the reverse lookup returns two absent fields. -/
theorem mapPriceIdToPlan_of_absent {pm : List (String × String)} {pid : Option String}
    (habs : ∀ kv ∈ pm, some kv.2 ≠ pid) :
    mapPriceIdToPlan pm pid = (none, none) := by
  cases pid with
  | none => rfl
  | some p =>
    have hfind : pm.find? (fun kv => kv.2 == p) = none := by
      rw [List.find?_eq_none]
      intro kv hkv
      simp only [beq_iff_eq]
      intro he
      exact habs kv hkv (by rw [he])
    simp [mapPriceIdToPlan, hfind]

/-! ### C6 -/

/-- C6: a resolved subscription event whose first line item price id is
absent from the catalog (including a missing price id) still results in a
written record, with planId and billingCycle stored as `null` rather than the
update being aborted. -/
theorem unknown_price_still_writes (env : WebhookEnv) (store : Store)
    (sub : SubEventObj) (uid : String)
    (hfs : env.firestoreOn = true)
    (hres : resolveSubUser env sub = some uid)
    (habs : ∀ kv ∈ env.priceMap, some kv.2 ≠ sub.itemsFirstPriceId) :
    ∃ r, (webhookHandler env store (.subUpdated sub)).1 uid = some r ∧
      r.planId = none ∧ r.billingCycle = none := by
  have h1 : (webhookHandler env store (.subUpdated sub)).1
      = handleSubscriptionUpdate env store sub none := rfl
  rw [h1]
  unfold handleSubscriptionUpdate
  rw [hres]
  unfold upsertSubscription
  rw [hfs]
  refine ⟨upsertPayload env.priceMap (argsOfEvent sub none), by simp, ?_, ?_⟩ <;>
    simp [upsertPayload, argsOfEvent, mapPriceIdToPlan_of_absent habs]

/-- Witness for `unknown_price_still_writes`: a concrete event with a price
id outside the one-entry catalog still produces a record with absent plan
fields. -/
theorem unknown_price_still_writes_witness :
    envW.firestoreOn = true ∧
    resolveSubUser envW subUnknownPriceC6 = some "user_42" ∧
    (∀ kv ∈ envW.priceMap, some kv.2 ≠ subUnknownPriceC6.itemsFirstPriceId) ∧
    ∃ r, (webhookHandler envW storeEmpty (.subUpdated subUnknownPriceC6)).1 "user_42" =
        some r ∧ r.planId = none ∧ r.billingCycle = none :=
  ⟨rfl, rfl, by decide,
    unknown_price_still_writes envW storeEmpty subUnknownPriceC6 "user_42" rfl rfl
      (by decide)⟩

/-! ### C7 -/

/-- C7 counterexample: in an environment where the email lookup finds an
untagged customer `cus_1` and the metadata patch is rejected, the function
propagates the error instead of returning the found id. -/
theorem patch_failure_counterexample :
    findOrCreateStripeCustomer custEnvC7 (some "a@example.com") (some "A")
      (some "user_1") = .error "update failed" ∧
    findOrCreateStripeCustomer custEnvC7 (some "a@example.com") (some "A")
      (some "user_1") ≠ .ok "cus_1" := by
  constructor
  · rfl
  · intro h
    rw [show findOrCreateStripeCustomer custEnvC7 (some "a@example.com") (some "A")
        (some "user_1") = .error "update failed" from rfl] at h
    exact Except.noConfusion h

/-- C7 amended: when the customer found by email lacks a truthy correlation
tag and the metadata patch call fails, the failure is fatal: the error
propagates out of `findOrCreateStripeCustomer` instead of the found id being
returned. -/
theorem patch_failure_propagates (env : CustomerEnv)
    (email name clerkUserId : Option String) (c : StripeCustomer)
    (rest : List StripeCustomer) (uid e : String)
    (hlist : env.listByEmail email = .ok (c :: rest))
    (hnotag : jsTruthyS c.metadataClerkUserId = none)
    (huid : jsTruthyS clerkUserId = some uid)
    (hupd : env.update c.id uid = .error e) :
    findOrCreateStripeCustomer env email name clerkUserId = .error e := by
  simp [findOrCreateStripeCustomer, hlist, hnotag, huid, hupd]

/-- Witness for `patch_failure_propagates` in the concrete environment of the
counterexample. -/
theorem patch_failure_propagates_witness :
    custEnvC7.listByEmail (some "a@example.com") =
      .ok [{ id := "cus_1", metadataClerkUserId := none }] ∧
    jsTruthyS (none : Option String) = none ∧
    jsTruthyS (some "user_1") = some "user_1" ∧
    custEnvC7.update "cus_1" "user_1" = .error "update failed" ∧
    findOrCreateStripeCustomer custEnvC7 (some "a@example.com") (some "A")
      (some "user_1") = .error "update failed" :=
  ⟨rfl, rfl, rfl, rfl,
    patch_failure_propagates custEnvC7 (some "a@example.com") (some "A")
      (some "user_1") { id := "cus_1", metadataClerkUserId := none } [] "user_1"
      "update failed" rfl rfl rfl rfl⟩

/-- The gate condition holds exactly for a present record with a truthy
status different from `active`. -/
theorem subInactive_eq_true {o : Option SubRecord} :
    subInactive o = true ↔
      ∃ r s, o = some r ∧ r.status = some s ∧ s ≠ "" ∧ s ≠ "active" := by
  cases o with
  | none => simp [subInactive]
  | some r =>
    cases hs : r.status with
    | none => simp [subInactive, hs]
    | some s => simp [subInactive, hs]

/-! ### C8 -/

/-- C8: `/ai/analyze` answers 403 exactly when the persisted record of the
caller exists and carries an explicit status other than `active`; a missing
record or a record without a status is allowed.  The hypothesis that a stored
status is never the empty string holds for every record this system writes
(see `upsertPayload_status_ne_empty`). -/
theorem analyze_gate_403_iff (env : AiEnv) (uid : String) (req : AiReq)
    (hns : ∀ r, getSubscription env uid = some r → r.status ≠ some "") :
    (aiAnalyze env uid req).1 = 403 ↔
      ∃ r s, getSubscription env uid = some r ∧ r.status = some s ∧ s ≠ "active" := by
  constructor
  · intro h403
    by_cases hin : subInactive (getSubscription env uid) = true
    · obtain ⟨r, s, hr, hs, _, hsa⟩ := subInactive_eq_true.mp hin
      exact ⟨r, s, hr, hs, hsa⟩
    · exfalso
      rw [Bool.not_eq_true] at hin
      by_cases hoc : env.openaiConfigured = false
      · simp [aiAnalyze, hin, hoc] at h403
      · cases hmc : env.modelCall with
        | error e => simp [aiAnalyze, hin, hoc, hmc] at h403
        | ok raw =>
          cases htr : jsTruthyS raw with
          | none => simp [aiAnalyze, hin, hoc, hmc, htr] at h403
          | some rr =>
            cases hp : env.parse rr with
            | error e => simp [aiAnalyze, hin, hoc, hmc, htr, hp] at h403
            | ok j =>
              by_cases hj : jsTruthyVal j = true
              · simp [aiAnalyze, hin, hoc, hmc, htr, hp, hj] at h403
              · simp [aiAnalyze, hin, hoc, hmc, htr, hp, hj] at h403
  · rintro ⟨r, s, hr, hs, hsa⟩
    have hne : s ≠ "" := fun he => hns r hr (by rw [hs, he])
    have hin : subInactive (getSubscription env uid) = true :=
      subInactive_eq_true.mpr ⟨r, s, hr, hs, hne, hsa⟩
    simp [aiAnalyze, hin]

/-- Witness for `analyze_gate_403_iff`: a stored `past_due` record makes the
endpoint answer 403. -/
theorem analyze_gate_403_iff_witness :
    (∀ r, getSubscription aiEnvC8 "user_1" = some r → r.status ≠ some "") ∧
    (aiAnalyze aiEnvC8 "user_1" reqC9).1 = 403 :=
  ⟨fun r hr => by
      rw [show getSubscription aiEnvC8 "user_1" = some recC8 from rfl] at hr
      cases hr
      decide,
    (analyze_gate_403_iff aiEnvC8 "user_1" reqC9
      (fun r hr => by
        rw [show getSubscription aiEnvC8 "user_1" = some recC8 from rfl] at hr
        cases hr
        decide)).mpr
      ⟨recC8, "past_due", rfl, rfl, by decide⟩⟩

/-! ### C9 -/

/-- C9 counterexample: when the model call returns non-JSON output, the
endpoint answers 500 with an error message and an embedded fallback, while
the no-client case answers 200 with the bare fallback object: the status and
body shape differ, so the malformed-output response is not the same fallback
result and does surface an error status to the caller. -/
theorem analyze_parse_failure_counterexample :
    aiAnalyze aiEnvC9bad "user_1" reqC9 =
      (500, .errorWithFallback "AI analysis failed" (fallbackAiResponse reqC9 ["Work"])) ∧
    aiAnalyze aiEnvC9off "user_1" reqC9 =
      (200, .result (fallbackAiResponse reqC9 ["Work"])) ∧
    (aiAnalyze aiEnvC9bad "user_1" reqC9).1 ≠ 200 ∧
    aiAnalyze aiEnvC9bad "user_1" reqC9 ≠ aiAnalyze aiEnvC9off "user_1" reqC9 := by
  refine ⟨rfl, rfl, by decide, by decide⟩

/-- C9 amended: a model call returning truthy but unparsable output is caught
and answered with HTTP 500 whose body embeds, under an error message, exactly
the fallback object that the no-client case returns with 200; no exception
propagates past the handler. -/
theorem analyze_parse_failure_amended (env envOff : AiEnv) (uid : String)
    (req : AiReq) (raw : String)
    (h1 : env.openaiConfigured = true)
    (h2 : subInactive (getSubscription env uid) = false)
    (h3 : env.modelCall = .ok (some raw))
    (h4 : raw ≠ "")
    (h5 : env.parse raw = .error ())
    (h6 : envOff.openaiConfigured = false)
    (h7 : subInactive (getSubscription envOff uid) = false) :
    aiAnalyze env uid req =
      (500, .errorWithFallback "AI analysis failed"
        (fallbackAiResponse req (jsFoldersOr req.currentFolders req.preferredFolders))) ∧
    aiAnalyze envOff uid req =
      (200, .result (fallbackAiResponse req (jsFoldersOr req.currentFolders req.preferredFolders))) := by
  constructor
  · have htr : jsTruthyS (some raw) = some raw := by simp [jsTruthyS, h4]
    simp [aiAnalyze, h1, h2, h3, htr, h5]
  · simp [aiAnalyze, h6, h7]

/-- Witness for `analyze_parse_failure_amended` at the concrete environments
of the counterexample. -/
theorem analyze_parse_failure_amended_witness :
    aiEnvC9bad.openaiConfigured = true ∧
    aiEnvC9bad.modelCall = .ok (some "not json") ∧
    aiEnvC9bad.parse "not json" = .error () ∧
    aiEnvC9off.openaiConfigured = false ∧
    (aiAnalyze aiEnvC9bad "user_1" reqC9 =
      (500, .errorWithFallback "AI analysis failed"
        (fallbackAiResponse reqC9 (jsFoldersOr reqC9.currentFolders reqC9.preferredFolders))) ∧
    aiAnalyze aiEnvC9off "user_1" reqC9 =
      (200, .result (fallbackAiResponse reqC9 (jsFoldersOr reqC9.currentFolders reqC9.preferredFolders)))) :=
  ⟨rfl, rfl, rfl, rfl,
    analyze_parse_failure_amended aiEnvC9bad aiEnvC9off "user_1" reqC9 "not json"
      rfl rfl rfl (by decide) rfl rfl rfl⟩

/-! ### C10 -/

/-- C10: `/create-payment-intent` answers 400 with the `Amount is required`
error for every falsy amount (absent or zero) without calling the provider;
for every other amount it calls the provider with exactly
`Math.round(amount * 100)` cents. -/
theorem payment_intent_amount (env : PIEnv) (req : PIReq) :
    (jsTruthyQ req.amount = none →
      createPaymentIntentHandler env req = ((400, .error "Amount is required"), none)) ∧
    (∀ a : ℚ, req.amount = some a → a ≠ 0 →
      ∃ call, (createPaymentIntentHandler env req).2 = some call ∧
        call.amount = jsRound (a * 100)) := by
  constructor
  · intro hf
    simp [createPaymentIntentHandler, hf]
  · intro a ha hnz
    have ht : jsTruthyQ req.amount = some a := by simp [jsTruthyQ, ha, hnz]
    cases hc : env.create
        { amount := jsRound (a * 100)
          currency := req.currency.getD "usd"
          customerId := req.customerId } with
    | ok r =>
      refine ⟨⟨jsRound (a * 100), req.currency.getD "usd", req.customerId⟩, ?_, rfl⟩
      simp [createPaymentIntentHandler, ht, hc]
    | error e =>
      refine ⟨⟨jsRound (a * 100), req.currency.getD "usd", req.customerId⟩, ?_, rfl⟩
      simp [createPaymentIntentHandler, ht, hc]

/-- Witness for `payment_intent_amount`: an absent amount yields the 400
error, and 19.99 dollars are passed to the provider as 1999 cents. -/
theorem payment_intent_amount_witness :
    jsTruthyQ piReqNone.amount = none ∧
    createPaymentIntentHandler piEnvC10 piReqNone =
      ((400, .error "Amount is required"), none) ∧
    piReqC10.amount = some ((1999 : ℚ) / 100) ∧
    ((1999 : ℚ) / 100 ≠ 0) ∧
    (∃ call, (createPaymentIntentHandler piEnvC10 piReqC10).2 = some call ∧
      call.amount = jsRound ((1999 : ℚ) / 100 * 100)) ∧
    jsRound ((1999 : ℚ) / 100 * 100) = 1999 :=
  ⟨rfl, (payment_intent_amount piEnvC10 piReqNone).1 rfl, rfl, by norm_num,
    (payment_intent_amount piEnvC10 piReqC10).2 ((1999 : ℚ) / 100) rfl (by norm_num),
    by norm_num [jsRound]⟩

end StripeServer
